import Mathlib

/-!
Shallow embedding of the core of the `mcp-client` repository
(`src/client.ts`, `src/index.ts`): the connection configuration, the
session state machine of `MCPClient` (connect / listTools / callTool /
disconnect), the error translation performed in `callTool`'s catch block,
and the CLI command handlers that orchestrate one session per invocation.

External effects (the protocol handshake, the server's response to a
request, the underlying transport's `close()`) are passed in explicitly as
parameters, so every function here is executable. A thrown JavaScript
error is modelled by `JSError`; JavaScript string falsiness (a missing
message and an empty message behave alike under `||` and `&&`) is modelled
by using the empty string for both.
-/

namespace MCP

/-- Character-list prefix test, the building block of the substring test. -/
def isPrefixList : List Char → List Char → Bool
  | [], _ => true
  | _ :: _, [] => false
  | p :: ps, c :: cs => p == c && isPrefixList ps cs

/-- Helper scanning every suffix for an occurrence of `sub`. -/
def includesAux (sub : List Char) : List Char → Bool
  | [] => isPrefixList sub []
  | c :: cs => isPrefixList sub (c :: cs) || includesAux sub cs

/-- JavaScript `String.prototype.includes`: case-sensitive substring test. -/
def includes (s sub : String) : Bool :=
  includesAux sub.data s.data

/-- ASCII lower-casing of one character. -/
def lowerChar (c : Char) : Char :=
  if 65 ≤ c.toNat && c.toNat ≤ 90 then Char.ofNat (c.toNat + 32) else c

/-- ASCII lower-casing of a string. -/
def lowerStr (s : String) : String :=
  String.mk (s.data.map lowerChar)

/-- Case-insensitive substring test, as the specification words it. -/
def includesCI (s sub : String) : Bool :=
  includes (lowerStr s) (lowerStr sub)

/-- Helper for `splitChar`, accumulating the current field. -/
def splitCharAux (c : Char) : List Char → List Char → List String
  | [], acc => [String.mk acc.reverse]
  | x :: xs, acc =>
    if x == c then String.mk acc.reverse :: splitCharAux c xs []
    else splitCharAux c xs (x :: acc)

/-- JavaScript `String.prototype.split` with a one-character separator:
adjacent separators yield empty fields, and the result is never empty. -/
def splitChar (c : Char) (s : String) : List String :=
  splitCharAux c s.data []

/-- The single-quote character, used in the source's error messages. -/
def quoteChar : String := String.mk [Char.ofNat 39]

/-- A thrown JavaScript error value: its `message` (the empty string models
both a missing and an empty message, which the source treats alike via
falsiness) and its optional `code` property, either a JSON-RPC number or an
application-level string code. -/
structure JSError where
  message : String
  code : Option (Int ⊕ String) := none
  deriving Repr, DecidableEq

/-- The `MCPClientOptions` interface of `src/client.ts`. The `transport`
field records whether a pre-supplied in-memory test transport is present.
`bearerToken` is the field the repository's README (`--bearer`) and the
bearer-token tests pass in; `src/client.ts` itself never reads it, which
the embedding reflects by never consuming it. -/
structure MCPClientOptions where
  type : String
  url : Option String := none
  cmd : Option String := none
  quiet : Bool := false
  transport : Bool := false
  bearerToken : Option String := none
  deriving Repr, DecidableEq

/-- JavaScript truthiness of an optional string option: absent and empty
are both falsy. -/
def truthy : Option String → Bool
  | none => false
  | some s => !s.isEmpty

/-- `isValidTransport` from `src/utils.ts`. -/
def isValidTransport (t : String) : Bool :=
  t == "local" || t == "http" || t == "https" || t == "sse" || t == "test"

/-- `MCPClient.validateOptions`, run by the constructor. The URL parser
behind `validateUrl` (`new URL`) is abstracted as the predicate
`urlValid`; no claim here depends on its exact semantics. Returns the
thrown configuration error message, or `.ok` when construction succeeds. -/
def validateOptions (urlValid : String → Bool) (o : MCPClientOptions) :
    Except String Unit :=
  if !isValidTransport o.type then
    .error ("Invalid transport type: " ++ o.type)
  else if (o.type == "http" || o.type == "https" || o.type == "sse")
      && !truthy o.url then
    .error ("URL is required for " ++ o.type ++ " transport")
  else if o.type == "local" && !truthy o.cmd then
    .error ("Command is required for local transport")
  else if truthy o.url && !urlValid (o.url.getD ("")) then
    .error ("Invalid URL: " ++ o.url.getD (""))
  else
    .ok ()

/-- The transport object assigned to `this.transport` by the four
`connect*` helpers. `stdio` carries the naively split command line;
`streamableHttp` carries the URL and the `Authorization` header value
passed to the transport's request options (the source passes none). -/
inductive TransportHandle where
  | stdio (command : String) (args : List String)
  | streamableHttp (url : String) (authHeader : Option String)
  | sse (url : String)
  | inMemory
  deriving Repr, DecidableEq

/-- The mutable fields of an `MCPClient` instance: `client` is whether
`this.client` is non-null, `transport` is the object held by
`this.transport` (or `none` for null). -/
structure MCPClientState where
  options : MCPClientOptions
  client : Bool := false
  transport : Option TransportHandle := none
  deriving Repr, DecidableEq

/-- `MCPClient.connect`. Each `connect*` helper assigns `this.transport`
and `this.client` and then awaits the protocol handshake
(`this.client.connect(transport)`); `handshakeFail` is the message of the
error that await raises, or `none` on success. The surrounding catch wraps
any failure in a single `Failed to connect: `-prefixed error. Note the
assignments precede the handshake, so they survive a handshake failure. -/
def connect (handshakeFail : Option String) (s : MCPClientState) :
    MCPClientState × Option JSError :=
  let wrap : String → JSError := fun m => { message := "Failed to connect: " ++ m }
  let attach : TransportHandle → MCPClientState × Option JSError := fun t =>
    let s1 := { s with transport := some t, client := true }
    match handshakeFail with
    | none => (s1, none)
    | some m => (s1, some (wrap m))
  if s.options.transport then
    attach .inMemory
  else if s.options.type == "local" then
    let cmdParts := splitChar ' ' (s.options.cmd.getD (""))
    attach (.stdio (cmdParts.headD ("")) cmdParts.tail)
  else if s.options.type == "http" || s.options.type == "https" then
    attach (.streamableHttp (s.options.url.getD ("")) none)
  else if s.options.type == "sse" then
    attach (.sse (s.options.url.getD ("")))
  else
    (s, some (wrap ("Unsupported transport: " ++ s.options.type)))

/-- A tool descriptor as returned by discovery. -/
structure Tool where
  name : String
  description : Option String := none
  deriving Repr, DecidableEq

/-- The error thrown by the not-connected guard at the top of `listTools`
and `callTool`: a plain error carrying no code property. -/
def notConnectedError : JSError := { message := "Not connected to server" }

/-- `MCPClient.listTools`. `serverResult` is the outcome of the awaited
`this.client.listTools()` call: a response whose `tools` field may be
absent, or a thrown error. -/
def listTools (serverResult : Except JSError (Option (List Tool)))
    (s : MCPClientState) : Except JSError (List Tool) :=
  if !s.client then
    .error notConnectedError
  else
    match serverResult with
    | .ok tools => .ok (tools.getD [])
    | .error e =>
        .error { message := if e.message.isEmpty then ("Server error") else e.message,
                 code := some (.inr ("SERVER_ERROR")) }

/-- One content block of a tool-call response; the empty string models a
missing or empty `text` field, which the source treats alike. -/
structure ContentBlock where
  text : String := ""
  deriving Repr, DecidableEq

/-- The response object of `client.callTool`: the `isError` flag and the
optionally-present content array. -/
structure CallToolResponse where
  isError : Bool := false
  content : Option (List ContentBlock) := none
  deriving Repr, DecidableEq

/-- The `TOOL_NOT_FOUND` error built at several places in `callTool`. -/
def toolNotFoundError (toolName : String) : JSError :=
  { message := "Tool " ++ quoteChar ++ toolName ++ quoteChar ++ " not found",
    code := some (.inr ("TOOL_NOT_FOUND")) }

/-- The `INVALID_PARAMS` error message built in `callTool`. -/
def invalidParamsMessage (toolName detail : String) : String :=
  "Invalid parameters for tool " ++ quoteChar ++ toolName ++ quoteChar ++ ": " ++ detail

/-- The catch block of `MCPClient.callTool`: ordered, first match wins.
Numeric JSON-RPC codes -32601 and -32602 first, then pass-through of errors
already carrying a string code, then case-sensitive text heuristics, then
the `SERVER_ERROR` fallback. -/
def translateCallError (toolName : String) (e : JSError) : JSError :=
  if e.code = some (.inl (-32601)) then
    toolNotFoundError toolName
  else if e.code = some (.inl (-32602)) then
    { message := invalidParamsMessage toolName
        (if e.message.isEmpty then ("Invalid parameters") else e.message),
      code := some (.inr ("INVALID_PARAMS")) }
  else if (match e.code with | some (.inr _) => true | _ => false) then
    e
  else if !e.message.isEmpty && includes e.message ("not found") then
    toolNotFoundError toolName
  else if !e.message.isEmpty && includes e.message ("Invalid parameters") then
    { message := invalidParamsMessage toolName e.message,
      code := some (.inr ("INVALID_PARAMS")) }
  else
    { message := if e.message.isEmpty then ("Server error") else e.message,
      code := some (.inr ("SERVER_ERROR")) }

/-- The try block of `MCPClient.callTool`: awaits the server response and
handles the in-band `isError` flag, reading the first content block's text
with `Unknown error` as the falsy fallback. -/
def callToolTry (toolName : String)
    (serverResult : Except JSError CallToolResponse) :
    Except JSError CallToolResponse :=
  match serverResult with
  | .error e => .error e
  | .ok resp =>
    if resp.isError then
      let firstText := ((resp.content.getD []).headD { text := "" }).text
      let errorText := if firstText.isEmpty then ("Unknown error") else firstText
      if includes errorText ("not found") || includes errorText ("Tool not found") then
        .error (toolNotFoundError toolName)
      else
        .error { message := errorText, code := some (.inr ("SERVER_ERROR")) }
    else
      .ok resp

/-- `MCPClient.callTool`: the not-connected guard, then the try block,
whose thrown errors (including the in-band ones) all pass through the
catch block `translateCallError`. -/
def callTool (toolName : String)
    (serverResult : Except JSError CallToolResponse)
    (s : MCPClientState) : Except JSError CallToolResponse :=
  if !s.client then
    .error notConnectedError
  else
    match callToolTry toolName serverResult with
    | .ok r => .ok r
    | .error e => .error (translateCallError toolName e)

/-- `MCPClient.disconnect`. `transportCloseFail` is the error message the
awaited `this.transport.close()` raises, or `none` on success. When that
await throws, the nulling assignments after it are skipped, so the handles
are retained and the error propagates. -/
def disconnect (transportCloseFail : Option String) (s : MCPClientState) :
    MCPClientState × Option JSError :=
  match s.transport with
  | some _ =>
    match transportCloseFail with
    | some m => (s, some { message := m })
    | none => ({ s with transport := none, client := false }, none)
  | none => ({ s with client := false }, none)

/-- `MCPClient.disconnectHttpSession`: the HTTP DELETE is attempted inside
a try/catch whose catch ignores every error (`fetchFail` records whether
it failed, with no effect on the outcome), then `disconnect` runs. -/
def disconnectHttpSession (fetchFail : Bool) (transportCloseFail : Option String)
    (s : MCPClientState) : MCPClientState × Option JSError :=
  let _ := fetchFail
  disconnect transportCloseFail s

/-- Outcome of one CLI command handler in `src/index.ts`: the success path
reaches `process.exit(0)`, every caught error reaches `handleError`. -/
inductive CliOutcome where
  | exitZero
  | handled (e : JSError)
  deriving Repr, DecidableEq

/-- The `inspect` command action of `src/index.ts`: construct the client
(validation errors are caught), `connect()`, `listTools()`, print, then
`disconnect()` and exit 0 — all inside one try whose catch calls
`handleError`. The second component records whether `disconnect` was
attempted. -/
def inspectAction (urlValid : String → Bool) (o : MCPClientOptions)
    (handshakeFail : Option String)
    (serverTools : Except JSError (Option (List Tool)))
    (transportCloseFail : Option String) : CliOutcome × Bool :=
  match validateOptions urlValid o with
  | .error m => (.handled { message := m }, false)
  | .ok _ =>
    match connect handshakeFail { options := o } with
    | (_, some e) => (.handled e, false)
    | (s1, none) =>
      match listTools serverTools s1 with
      | .error e => (.handled e, false)
      | .ok _ =>
        match disconnect transportCloseFail s1 with
        | (_, some e) => (.handled e, true)
        | (_, none) => (.exitZero, true)

/-- The tool-execution action of `src/index.ts` (after tool-name and
parameter resolution): construct, `connect()`, `callTool()`, print, then
`disconnect()` and exit 0, all in one try whose catch calls `handleError`.
The second component records whether `disconnect` was attempted. -/
def toolAction (urlValid : String → Bool) (o : MCPClientOptions) (tool : String)
    (handshakeFail : Option String)
    (serverResult : Except JSError CallToolResponse)
    (transportCloseFail : Option String) : CliOutcome × Bool :=
  match validateOptions urlValid o with
  | .error m => (.handled { message := m }, false)
  | .ok _ =>
    match connect handshakeFail { options := o } with
    | (_, some e) => (.handled e, false)
    | (s1, none) =>
      match callTool tool serverResult s1 with
      | .error e => (.handled e, false)
      | .ok _ =>
        match disconnect transportCloseFail s1 with
        | (_, some e) => (.handled e, true)
        | (_, none) => (.exitZero, true)

/-- The translation rule for uncoded failures exactly as the claim words
it: case-insensitive substring tests, first match wins. Used only to
compare the specification's wording against `translateCallError`. -/
def claimTextTranslate (toolName : String) (e : JSError) : JSError :=
  if includesCI e.message ("not found") then
    toolNotFoundError toolName
  else if includesCI e.message ("Invalid parameters") then
    { message := invalidParamsMessage toolName e.message,
      code := some (.inr ("INVALID_PARAMS")) }
  else
    { message := if e.message.isEmpty then ("Server error") else e.message,
      code := some (.inr ("SERVER_ERROR")) }

/-! ## General lemmas about the embedding -/

/-- An empty string contains no nonempty substring, so the source's
`error.message && error.message.includes(pat)` guard coincides with the
plain substring test. -/
theorem includes_eq_false_of_isEmpty (s sub : String) (hs : s.isEmpty = true)
    (hsub : isPrefixList sub.data [] = false) : includes s sub = false := by
  have hE : s = "" := (String.isEmpty_iff s).1 hs
  subst hE
  show includesAux sub.data [] = false
  show isPrefixList sub.data [] = false
  exact hsub

/-! ## Claim C1 — the not-connected guard -/

/-- Claim C1, counterexample: on a session that never connected, both
operations do throw immediately, but the thrown error is a plain error
with message `Not connected to server` and no code property at all — its
kind is not `NOT_CONNECTED`. -/
theorem notConnected_guard_lacks_kind_cex :
    listTools (.ok none) { options := { type := "local", cmd := some ("server") } } =
      .error { message := "Not connected to server", code := none } ∧
    callTool ("echo") (.ok { isError := false })
        { options := { type := "local", cmd := some ("server") } } =
      .error { message := "Not connected to server", code := none } ∧
    ({ message := "Not connected to server", code := none } : JSError).code ≠
      some (.inr ("NOT_CONNECTED")) := by
  refine ⟨rfl, rfl, by decide⟩

/-- Claim C1, amended: on every session whose client handle is unset (never
connected, or closed), `listTools` and `callTool` fail immediately with the
fixed plain error `Not connected to server` carrying no application error
kind, whatever the server would have answered (so the network is never
consulted and no other error type is thrown). -/
theorem notConnected_guard_plain_error (s : MCPClientState) (h : s.client = false)
    (r : Except JSError (Option (List Tool))) (n : String)
    (rc : Except JSError CallToolResponse) :
    listTools r s = .error notConnectedError ∧
    callTool n rc s = .error notConnectedError := by
  constructor <;> simp [listTools, callTool, h]

/-- Claim C1, witness for the amended theorem at a concrete session. -/
theorem notConnected_guard_plain_error_witness :
    listTools (.ok (some [])) { options := { type := "https", url := some ("https://a.example") } } =
      .error notConnectedError ∧
    callTool ("echo") (.ok { isError := false })
        { options := { type := "https", url := some ("https://a.example") } } =
      .error notConnectedError :=
  notConnected_guard_plain_error
    { options := { type := "https", url := some ("https://a.example") } } rfl
    (.ok (some [])) "echo" (.ok { isError := false })

/-! ## Claim C2 — failed connect leaves no partial state? -/

/-- Claim C2, counterexample: when the handshake of a local connect fails,
the raised error is correctly wrapped, but the client handle assigned
before the handshake is retained, and a subsequent `listTools` does not
fail as not-connected — it proceeds to consult the server. -/
theorem connect_failure_retains_handles_cex :
    (connect (some ("boom")) { options := { type := "local", cmd := some ("server") } }).2 =
      some { message := "Failed to connect: boom" } ∧
    (connect (some ("boom")) { options := { type := "local", cmd := some ("server") } }).1.client =
      true ∧
    listTools (.ok none)
        (connect (some ("boom")) { options := { type := "local", cmd := some ("server") } }).1 =
      .ok [] := by
  refine ⟨rfl, rfl, rfl⟩

/-- Claim C2, amended: on a handshake failure over any of the supported
transports, `connect` raises a single error prefixed `Failed to connect: `,
but the session does not remain unconnected: the client handle assigned
during the attempt is retained, so a subsequent operation is not stopped by
the not-connected guard. -/
theorem connect_failure_wrapped_but_client_retained (s : MCPClientState) (msg : String)
    (h : s.options.transport = true ∨ s.options.type = "local" ∨ s.options.type = "http" ∨
      s.options.type = "https" ∨ s.options.type = "sse") :
    (connect (some msg) s).2 = some { message := "Failed to connect: " ++ msg } ∧
    (connect (some msg) s).1.client = true := by
  by_cases ht : s.options.transport = true
  · simp [connect, ht]
  · have ht2 : s.options.transport = false := by
      cases hb : s.options.transport
      · rfl
      · exact absurd hb ht
    rcases h with h | h | h | h | h
    · exact absurd h ht
    all_goals simp [connect, ht2, h]

/-- Claim C2, witness for the amended theorem at a concrete failing
handshake. -/
theorem connect_failure_wrapped_but_client_retained_witness :
    (connect (some ("refused")) { options := { type := "sse", url := some ("https://a.example") } }).2 =
      some { message := "Failed to connect: " ++ "refused" } ∧
    (connect (some ("refused")) { options := { type := "sse", url := some ("https://a.example") } }).1.client =
      true :=
  connect_failure_wrapped_but_client_retained
    { options := { type := "sse", url := some ("https://a.example") } } "refused"
    (Or.inr (Or.inr (Or.inr (Or.inr rfl))))

/-! ## Claim C5 — bearer token on HTTP requests -/

/-- Claim C5, code evaluation at the failing input: for an `https`
configuration carrying a bearer token, the streamable HTTP transport is
constructed from the URL alone, with no `Authorization` header value —
the `bearerToken` option is never read, contradicting the repository's
README (`--bearer`) and its bearer-token tests. -/
theorem connectHttp_ignores_bearerToken (tok : Option String) (hs : Option String) :
    (connect hs
        { options :=
            { type := "https"
              url := some ("https://example.com/mcp")
              bearerToken := tok } }).1.transport =
      some (TransportHandle.streamableHttp ("https://example.com/mcp") none) := by
  cases hs <;> rfl

/-! ## Claim C6 — idempotent, silent close -/

/-- Claim C6, counterexample: on a connected session whose underlying
transport `close()` raises, `disconnect` propagates the error instead of
succeeding silently, and the handles are retained. -/
theorem close_raises_on_transport_close_failure_cex :
    (disconnect (some ("close failed"))
        { options := { type := "local", cmd := some ("server") }, client := true,
          transport := some (.stdio ("server") []) }).2 =
      some { message := "close failed" } ∧
    (disconnect (some ("close failed"))
        { options := { type := "local", cmd := some ("server") }, client := true,
          transport := some (.stdio ("server") []) }).1.transport =
      some (.stdio ("server") []) := by
  refine ⟨rfl, rfl⟩

/-- Claim C6, amended: `close()` on a session holding no transport (never
connected or already closed) never raises, whatever the underlying close
would have done, and leaves the session closed; a second close after a
successful close never raises from any starting state; and the extra HTTP
session-termination request of `disconnectHttpSession` never changes the
outcome, its failure being swallowed. Only a connected session whose
transport close itself raises makes `close()` raise. -/
theorem close_silent_without_transport (s s2 : MCPClientState)
    (fail : Option String) (b : Bool) (h : s.transport = none) :
    (disconnect fail s).2 = none ∧
    (disconnect fail s).1.client = false ∧
    (disconnect fail s).1.transport = none ∧
    disconnectHttpSession b fail s = disconnect fail s ∧
    (disconnect fail ((disconnect none s2).1)).2 = none := by
  refine ⟨?_, ?_, ?_, rfl, ?_⟩
  · simp [disconnect, h]
  · simp [disconnect, h]
  · simp [disconnect, h]
  · rcases h2 : s2.transport with _ | t <;> simp [disconnect, h2]

/-- Claim C6, witness for the amended theorem: a never-connected session
and, for the double-close part, a connected one. -/
theorem close_silent_without_transport_witness :
    (disconnect (some ("x")) { options := { type := "local", cmd := some ("server") } }).2 =
      none ∧
    (disconnect (some ("x")) { options := { type := "local", cmd := some ("server") } }).1.client =
      false ∧
    (disconnect (some ("x")) { options := { type := "local", cmd := some ("server") } }).1.transport =
      none ∧
    disconnectHttpSession true (some ("x")) { options := { type := "local", cmd := some ("server") } } =
      disconnect (some ("x")) { options := { type := "local", cmd := some ("server") } } ∧
    (disconnect (some ("x"))
        ((disconnect none
            { options := { type := "local", cmd := some ("server") }
              client := true
              transport := some (.stdio ("server") []) }).1)).2 = none :=
  close_silent_without_transport
    { options := { type := "local", cmd := some ("server") } }
    { options := { type := "local", cmd := some ("server") },
      client := true, transport := some (.stdio ("server") []) }
    (some ("x")) true rfl

/-! ## Claim C7 — local transport needs a command -/

/-- Claim C7, counterexample: a whitespace-only command line passes
validation (the source checks only JavaScript falsiness and never trims),
so construction does not fail with a configuration error. -/
theorem whitespace_cmd_passes_validation_cex :
    validateOptions (fun _ => true) { type := "local", cmd := some (" ") } = .ok () := rfl

/-- Claim C7, amended: for a local configuration (with no URL involved),
validation fails with the configuration error `Command is required for
local transport` exactly when the command line is absent or the empty
string; a whitespace-only command passes validation, its failure surfacing
only later at connection time. -/
theorem local_cmd_validation (f : String → Bool) (o : MCPClientOptions)
    (ht : o.type = "local") (hu : o.url = none) :
    validateOptions f o = .error ("Command is required for local transport") ↔
      (o.cmd = none ∨ o.cmd = some ("")) := by
  rcases hc : o.cmd with _ | c
  · simp [validateOptions, ht, hu, hc, truthy, isValidTransport]
  · by_cases hce : c = ""
    · subst hce
      simp [validateOptions, ht, hu, hc, truthy, isValidTransport]
      decide
    · have hE : c.isEmpty = false := by
        rw [← Bool.not_eq_true]
        intro hb
        exact hce ((String.isEmpty_iff c).1 hb)
      simp [validateOptions, ht, hu, hc, truthy, isValidTransport, hE, hce]

/-- Claim C7, witness for the amended theorem at an absent command line. -/
theorem local_cmd_validation_witness :
    validateOptions (fun _ => true) { type := "local" } =
        .error ("Command is required for local transport") ↔
      ((none : Option String) = none ∨ (none : Option String) = some ("")) :=
  local_cmd_validation (fun _ => true) { type := "local" } rfl rfl

/-! ## Claim C3 — the invoker's mandatory close -/

/-- Claim C3, counterexample: in the CLI handlers, `disconnect` sits on the
success path inside the same try as the operation, so when the operation
raises, the catch handler runs without any close attempt; and when the
operation succeeds but `disconnect` then raises, that close failure is what
the handler reports, replacing the operation's successful outcome. -/
theorem invoker_skips_close_on_failure_cex :
    (inspectAction (fun _ => true) { type := "local", cmd := some ("server") } none
        (.error { message := "boom" }) none).2 = false ∧
    (toolAction (fun _ => true) { type := "local", cmd := some ("server") } "echo" none
        (.error { message := "boom" }) none).2 = false ∧
    inspectAction (fun _ => true) { type := "local", cmd := some ("server") } none
        (.ok (some [])) (some ("close failed")) =
      (.handled { message := "close failed" }, true) := by
  refine ⟨rfl, rfl, rfl⟩

/-- Claim C3, amended: in both CLI handlers, `close()` is attempted exactly
when configuration validation, `connect()`, and the requested operation all
succeeded; when the operation raises, the error handler runs without
attempting `close()`, and a failure of the success-path `close()` is itself
routed to the error handler, replacing the operation's successful outcome. -/
theorem invoker_close_iff_operation_succeeded (f : String → Bool) (o : MCPClientOptions)
    (tool : String) (hs : Option String) (st : Except JSError (Option (List Tool)))
    (rc : Except JSError CallToolResponse) (tc : Option String) :
    ((inspectAction f o hs st tc).2 = true ↔
      validateOptions f o = .ok () ∧ (connect hs { options := o }).2 = none ∧
        ∃ ts, listTools st (connect hs { options := o }).1 = .ok ts) ∧
    ((toolAction f o tool hs rc tc).2 = true ↔
      validateOptions f o = .ok () ∧ (connect hs { options := o }).2 = none ∧
        ∃ r, callTool tool rc (connect hs { options := o }).1 = .ok r) := by
  constructor
  · rcases hv : validateOptions f o with m | u
    · simp [inspectAction, hv]
    · rcases hc : connect hs { options := o } with ⟨s1, oe⟩
      rcases oe with _ | e
      · rcases hl : listTools st s1 with e2 | ts
        · simp [inspectAction, hv, hc, hl]
        · rcases hd : disconnect tc s1 with ⟨s2, de⟩
          rcases de with _ | e3 <;> simp [inspectAction, hv, hc, hl, hd]
      · simp [inspectAction, hv, hc]
  · rcases hv : validateOptions f o with m | u
    · simp [toolAction, hv]
    · rcases hc : connect hs { options := o } with ⟨s1, oe⟩
      rcases oe with _ | e
      · rcases hl : callTool tool rc s1 with e2 | r
        · simp [toolAction, hv, hc, hl]
        · rcases hd : disconnect tc s1 with ⟨s2, de⟩
          rcases de with _ | e3 <;> simp [toolAction, hv, hc, hl, hd]
      · simp [toolAction, hv, hc]

/-! ## Claim C4 — the text heuristics of the error translator -/

/-- Claim C4, counterexample: a failure with no code whose message is
`Not Found` would be `TOOL_NOT_FOUND` under the claimed case-insensitive
matching, but the source's `includes` test is case-sensitive, so the
translator produces `SERVER_ERROR` instead. -/
theorem translate_not_case_insensitive_cex :
    translateCallError "echo" { message := "Not Found" } =
      { message := "Not Found", code := some (.inr ("SERVER_ERROR")) } ∧
    (claimTextTranslate "echo" { message := "Not Found" }).code =
      some (.inr ("TOOL_NOT_FOUND")) ∧
    (translateCallError "echo" { message := "Not Found" }).code ≠
      (claimTextTranslate "echo" { message := "Not Found" }).code := by
  refine ⟨rfl, rfl, by decide⟩

/-- Claim C4, amended: for a failure carrying neither a recognized numeric
protocol code nor a string kind, the translator applies case-sensitive
substring checks in first-match-wins order: `not found` gives
`TOOL_NOT_FOUND`; else `Invalid parameters` gives `INVALID_PARAMS` with the
detail appended; otherwise `SERVER_ERROR` with the original message, or
`Server error` when no message is present. -/
theorem translate_uncoded_case_sensitive (t : String) (e : JSError)
    (h : e.code = none ∨ ∃ n : Int, e.code = some (.inl n) ∧ n ≠ -32601 ∧ n ≠ -32602) :
    translateCallError t e =
      if includes e.message ("not found") then toolNotFoundError t
      else if includes e.message ("Invalid parameters") then
        { message := invalidParamsMessage t e.message, code := some (.inr ("INVALID_PARAMS")) }
      else
        { message := if e.message.isEmpty then ("Server error") else e.message,
          code := some (.inr ("SERVER_ERROR")) } := by
  have h1 : ¬ e.code = some (.inl (-32601)) := by
    rcases h with h | ⟨n, hn, hn1, hn2⟩
    · rw [h]; intro hx; cases hx
    · rw [hn]; intro hx
      exact hn1 (by injection (Option.some.inj hx))
  have h2 : ¬ e.code = some (.inl (-32602)) := by
    rcases h with h | ⟨n, hn, hn1, hn2⟩
    · rw [h]; intro hx; cases hx
    · rw [hn]; intro hx
      exact hn2 (by injection (Option.some.inj hx))
  have h3 : (match e.code with | some (.inr _) => true | _ => false) = false := by
    rcases h with h | ⟨n, hn, hn1, hn2⟩
    · rw [h]
    · rw [hn]
  by_cases hm : e.message.isEmpty = true
  · have hnf : includes e.message ("not found") = false :=
      includes_eq_false_of_isEmpty _ _ hm (by decide)
    have hip : includes e.message ("Invalid parameters") = false :=
      includes_eq_false_of_isEmpty _ _ hm (by decide)
    simp [translateCallError, h1, h2, h3, hm, hnf, hip]
  · have hm2 : e.message.isEmpty = false := by
      cases hb : e.message.isEmpty
      · rfl
      · exact absurd hb hm
    simp [translateCallError, h1, h2, h3, hm2]

/-- Claim C4, witness for the amended theorem at a concrete uncoded
failure whose message carries `Invalid parameters`. -/
theorem translate_uncoded_case_sensitive_witness :
    translateCallError "add" { message := "Invalid parameters: missing b" } =
      if includes "Invalid parameters: missing b" ("not found") then toolNotFoundError "add"
      else if includes "Invalid parameters: missing b" ("Invalid parameters") then
        { message := invalidParamsMessage "add" "Invalid parameters: missing b",
          code := some (.inr ("INVALID_PARAMS")) }
      else
        { message := if ("Invalid parameters: missing b" : String).isEmpty
            then ("Server error") else "Invalid parameters: missing b",
          code := some (.inr ("SERVER_ERROR")) } :=
  translate_uncoded_case_sensitive "add" { message := "Invalid parameters: missing b" }
    (Or.inl rfl)

/-! ## Claim C8 — listTools: order, emptiness, and a single error kind -/

/-- Claim C8: on a connected session, `listTools` returns exactly the
server's tool sequence (order untouched), the empty list — not an error —
when the server reports no list or an empty one, and every protocol-level
failure is surfaced with kind `SERVER_ERROR`. -/
theorem listTools_order_empty_and_server_error (s : MCPClientState) (h : s.client = true)
    (tools : List Tool) (mtools : Option (List Tool)) (e : JSError) :
    listTools (.ok (some tools)) s = .ok tools ∧
    listTools (.ok none) s = .ok [] ∧
    listTools (.ok mtools) s = .ok (mtools.getD []) ∧
    (∃ m, listTools (.error e) s =
      .error { message := m, code := some (.inr ("SERVER_ERROR")) }) := by
  refine ⟨?_, ?_, ?_, ⟨if e.message.isEmpty then ("Server error") else e.message, ?_⟩⟩ <;>
    simp [listTools, h]

/-- Claim C8, witness at a concrete connected session and server reply. -/
theorem listTools_order_empty_and_server_error_witness :
    listTools (.ok (some [{ name := "echo" }, { name := "add" }]))
        { options := { type := "local", cmd := some ("server") }, client := true,
          transport := some (.stdio ("server") []) } =
      .ok [{ name := "echo" }, { name := "add" }] ∧
    listTools (.ok none)
        { options := { type := "local", cmd := some ("server") }, client := true,
          transport := some (.stdio ("server") []) } =
      .ok [] ∧
    listTools (.ok (some []))
        { options := { type := "local", cmd := some ("server") }, client := true,
          transport := some (.stdio ("server") []) } =
      .ok ((some ([] : List Tool)).getD []) ∧
    (∃ m, listTools (.error { message := "boom" })
        { options := { type := "local", cmd := some ("server") }, client := true,
          transport := some (.stdio ("server") []) } =
      .error { message := m, code := some (.inr ("SERVER_ERROR")) }) :=
  listTools_order_empty_and_server_error
    { options := { type := "local", cmd := some ("server") }, client := true,
      transport := some (.stdio ("server") []) }
    rfl [{ name := "echo" }, { name := "add" }] (some []) { message := "boom" }

/-! ## Claim C9 — a supplied in-memory transport wins -/

/-- Claim C9: when a pre-supplied in-process transport is present,
`connect` attaches to it — the resulting transport handle is the in-memory
one, never a spawned stdio process or an HTTP or SSE channel — and both the
raised outcome and the attached handle are independent of the configured
transport kind; construction-time validation, meanwhile, never reads the
supplied transport. -/
theorem connect_prefers_supplied_transport (o : MCPClientOptions) (h : o.transport = true)
    (hs : Option String) (t2 : String) (f : String → Bool) :
    (connect hs { options := o }).1.transport = some TransportHandle.inMemory ∧
    (connect hs { options := o }).1.client = true ∧
    (connect hs { options := o }).2 = (connect hs { options := { o with type := t2 } }).2 ∧
    (connect hs { options := { o with type := t2 } }).1.transport =
      some TransportHandle.inMemory ∧
    validateOptions f o = validateOptions f { o with transport := false } := by
  refine ⟨?_, ?_, ?_, ?_, rfl⟩ <;> cases hs <;> simp [connect, h]

/-- Claim C9, witness at a concrete configuration carrying a test
transport, for the kinds `local` and `https`. -/
theorem connect_prefers_supplied_transport_witness :
    (connect none { options := { type := "local", cmd := some ("server"), transport := true } }).1.transport =
      some TransportHandle.inMemory ∧
    (connect none { options := { type := "local", cmd := some ("server"), transport := true } }).1.client =
      true ∧
    (connect none { options := { type := "local", cmd := some ("server"), transport := true } }).2 =
      (connect none
        { options :=
            { ({ type := "local", cmd := some ("server"), transport := true } : MCPClientOptions) with
              type := "https" } }).2 ∧
    (connect none
        { options :=
            { ({ type := "local", cmd := some ("server"), transport := true } : MCPClientOptions) with
              type := "https" } }).1.transport = some TransportHandle.inMemory ∧
    validateOptions (fun _ => true) { type := "local", cmd := some ("server"), transport := true } =
      validateOptions (fun _ => true)
        { ({ type := "local", cmd := some ("server"), transport := true } : MCPClientOptions) with
          transport := false } :=
  connect_prefers_supplied_transport
    { type := "local", cmd := some ("server"), transport := true } rfl none "https"
    (fun _ => true)

/-! ## Claim C10 — in-band tool errors without text -/

/-- Claim C10: on a connected session, a response flagged as an in-band
tool error whose content is missing, empty, or whose first block has no
text yields a `SERVER_ERROR` whose message is exactly the placeholder
`Unknown error` — not the tool name and not an empty string. -/
theorem inband_error_without_text_unknown (s : MCPClientState) (n : String)
    (resp : CallToolResponse) (h : s.client = true) (hE : resp.isError = true)
    (hc : resp.content = none ∨ resp.content = some [] ∨
      ∃ l, resp.content = some ({ text := "" } :: l)) :
    callTool n (.ok resp) s =
      .error { message := "Unknown error", code := some (.inr ("SERVER_ERROR")) } := by
  rcases hc with hx | hx | ⟨l, hx⟩ <;>
    simp [callTool, callToolTry, translateCallError, toolNotFoundError, h, hE, hx, includes,
      includesAux, isPrefixList] <;>
    decide

/-- Claim C10, witness at a concrete connected session and a flagged
response with missing content. -/
theorem inband_error_without_text_unknown_witness :
    callTool "echo" (.ok { isError := true, content := none })
        { options := { type := "local", cmd := some ("server") }, client := true,
          transport := some (.stdio ("server") []) } =
      .error { message := "Unknown error", code := some (.inr ("SERVER_ERROR")) } :=
  inband_error_without_text_unknown
    { options := { type := "local", cmd := some ("server") }, client := true,
      transport := some (.stdio ("server") []) }
    "echo" { isError := true, content := none } rfl rfl (Or.inl rfl)

end MCP
